import Mathlib

/-!
# Shallow embedding of `src/main.py` (schedule assistant)

This file models the core logic of the appointment-booking application:
the data model (`User`, `Appointment`), the notification sender
(`send_sms`), the registration handler (`create_account`), the booking
handler (`create_appointment`), the two soft-cancel handlers
(`customer_cancel_appointment`, `boss_cancel`) and the calendar view
(`calendar_view`).

Conventions of the embedding:
* The SQLite store is a pair of lists (`DB`), in insertion order; a
  SQLAlchemy `filter_by(...).first()` is `List.find?`, and the in-place
  mutation of a fetched row is replacement of the first matching list
  element.
* Python `datetime` values are a record of year/month/day/hour/minute
  (the app never uses seconds) compared lexicographically, which is how
  Python compares `datetime` values.
* Ambient effects become explicit parameters: the Twilio environment
  configuration (`TwilioConfig`), whether the transport call succeeds
  (`transportOk`), the autoincrement id (`freshId`), the hash salt, the
  current timestamp, and `date.today()`'s month.
* A handler returns the new store plus a `Response` (flash messages and
  the redirect/render target), and `boss_cancel` additionally the list
  of SMS transport calls it issued.
-/

set_option autoImplicit false

namespace ScheduleAssistant

/-- A `datetime.datetime` value as used by the app: year, month, day,
hour, minute (seconds are always zero here). -/
structure DateTime where
  year : Nat
  month : Nat
  day : Nat
  hour : Nat
  minute : Nat
deriving Repr, DecidableEq

/-- Python `datetime` comparison `a < b`: lexicographic on
(year, month, day, hour, minute). -/
def DateTime.ltb (a b : DateTime) : Bool :=
  a.year < b.year ||
    (a.year == b.year && (a.month < b.month ||
      (a.month == b.month && (a.day < b.day ||
        (a.day == b.day && (a.hour < b.hour ||
          (a.hour == b.hour && a.minute < b.minute)))))))

/-- Python `datetime` comparison `a <= b`. -/
def DateTime.leb (a b : DateTime) : Bool :=
  a == b || DateTime.ltb a b

/-- `User` model row (`src/main.py` lines 55-71). `phone` is a nullable
column, `role` defaults to `"user"`. -/
structure User where
  id : Nat
  fullname : String
  email : String
  password_hash : String
  created_at : DateTime
  role : String
  phone : Option String
deriving Repr, DecidableEq

/-- `Appointment` model row (`src/main.py` lines 74-84). `services` is a
comma-separated string, `canceled` the soft-cancel flag. -/
structure Appointment where
  id : Nat
  user_id : Nat
  title : String
  start_at : DateTime
  notes : Option String
  services : String
  canceled : Bool
deriving Repr, DecidableEq

/-- The persistent store: the two tables, rows in insertion order. -/
structure DB where
  users : List User
  appts : List Appointment
deriving Repr, DecidableEq

/-- A handler outcome: the flash messages it queued and the
redirect/render target it returned. -/
structure Response where
  flashes : List String
  redirect : String
deriving Repr, DecidableEq

/-- The session state a logged-in request carries
(`session["user_id"]`, `session["user_name"]`, `session["role"]`). -/
structure Session where
  user_id : Nat
  user_name : String
  role : String
deriving Repr, DecidableEq

/-- `is_boss()` (`src/main.py` line 120): role string equals "boss". -/
def is_boss (s : Session) : Bool :=
  s.role == "boss"

/-! ## Notification sender (`send_sms`, lines 25-39) -/

/-- The three Twilio environment variables (each absent or a string;
an empty string is falsy in Python) plus whether the `twilio` package
imported (`Client is None` when it did not). -/
structure TwilioConfig where
  account_sid : Option String
  auth_token : Option String
  from_number : Option String
  clientAvailable : Bool
deriving Repr, DecidableEq

/-- Python truthiness of an `os.environ.get` result: present and
non-empty. -/
def truthyOpt : Option String → Bool
  | none => false
  | some s => !(s == "")

/-- Truthiness of `TWILIO_ACCOUNT_SID and TWILIO_AUTH_TOKEN and
TWILIO_FROM_NUMBER`. -/
def credsOk (cfg : TwilioConfig) : Bool :=
  truthyOpt cfg.account_sid && truthyOpt cfg.auth_token && truthyOpt cfg.from_number

/-- `send_sms(to_number, body)` (lines 25-39). `transportOk` models
whether the Twilio client constructor and `messages.create` call
complete without raising. Returns `(success, attemptedNetworkIO)`;
the body text does not influence the outcome. The Python function is
total and never raises: every exception of the transport is caught and
mapped to `False`. -/
def send_sms (cfg : TwilioConfig) (transportOk : Bool)
    (to_number : String) (_body : String) : Bool × Bool :=
  if to_number == "" || !credsOk cfg then
    (false, false)
  else if !cfg.clientAvailable then
    (false, false)
  else if transportOk then
    (true, true)
  else
    (false, true)

/-! ## Python string primitives

Lean's built-in `String.trim`/`String.toLower`/`String.splitOn` run on
byte positions; the embedding uses character-list implementations with
the same meaning so that concrete instances evaluate inside proofs. -/

/-- Python `str.strip()`: drop leading and trailing whitespace. -/
def pyStrip (s : String) : String :=
  ⟨((s.data.dropWhile Char.isWhitespace).reverse.dropWhile Char.isWhitespace).reverse⟩

/-- Python `str.lower()` (ASCII range, all the app compares). -/
def pyLower (s : String) : String :=
  ⟨s.data.map Char.toLower⟩

/-- Split a character list at every occurrence of `sep` (the semantics
of `str.split(sep)` for a one-character separator). -/
def splitOnChar (sep : Char) : List Char → List (List Char)
  | [] => [[]]
  | c :: rest =>
    match splitOnChar sep rest with
    | [] => [[]]
    | g :: gs => if c == sep then [] :: g :: gs else (c :: g) :: gs

/-- Numeric value of a digit run. -/
def natOfDigits (l : List Char) : Nat :=
  l.foldl (fun n c => n * 10 + (c.toNat - 48)) 0

/-! ## Registration (`create_account`, lines 192-218) -/

/-- The POST form fields of `/create-account`. -/
structure RegForm where
  fullname : String
  email : String
  phone : String
  password : String
  confirm : String
deriving Repr, DecidableEq

/-- Modelled from the spec: werkzeug's `generate_password_hash` (library
code, not in `src/`) produces a salted hash of the password; we represent
it abstractly as the salt paired with the password, which keeps the
dependence on both visible. -/
def generate_password_hash (salt : String) (raw_password : String) : String :=
  salt ++ "$" ++ raw_password

/-- The registration handler POST branch (lines 193-216). `freshId` is
the autoincremented primary key, `now` the `datetime.utcnow` default,
`salt` the salt werkzeug draws for the hash. Order of checks as in the
source: empty fields, then password/confirm mismatch, then duplicate
email, then insert. -/
def create_account (db : DB) (freshId : Nat) (now : DateTime) (salt : String)
    (f : RegForm) : DB × Response :=
  let fullname := pyStrip f.fullname
  let email := pyLower (pyStrip f.email)
  let phone := pyStrip f.phone
  if fullname == "" || email == "" || f.password == "" then
    (db, ⟨["All fields are required."], "create_account"⟩)
  else if !(f.password == f.confirm) then
    (db, ⟨["Passwords do not match."], "create_account"⟩)
  else if (db.users.find? (fun u => u.email == email)).isSome then
    (db, ⟨["That email is already registered."], "create_account"⟩)
  else
    let user : User :=
      { id := freshId
        fullname := fullname
        email := email
        password_hash := generate_password_hash salt f.password
        created_at := now
        role := "user"
        phone := if phone == "" then none else some phone }
    ({ db with users := db.users ++ [user] },
     ⟨["Account created! You can log in now."], "home"⟩)

/-! ## Date/time parsing (`datetime.strptime`, line 257)

The app parses `f"{date_str} {time_str}"` with format
`"%Y-%m-%d %H:%M"`. CPython's `%Y` directive matches exactly four
digits, `%m`/`%d`/`%H`/`%M` match 1-2 digits, and the resulting fields
must form a valid Gregorian date-time with year in 1..9999 (year 0000
is rejected by the `datetime` constructor). -/

/-- A run of 1..`maxLen` ASCII digits. -/
def digitRun (maxLen : Nat) (l : List Char) : Bool :=
  decide (0 < l.length) && decide (l.length ≤ maxLen) && l.all Char.isDigit

/-- A run of exactly `len` ASCII digits (CPython's `%Y` matches exactly
four digits: `strptime("999-12-31", "%Y-%m-%d")` raises `ValueError`
while `"0999-12-31"` parses). -/
def digitRunExact (len : Nat) (l : List Char) : Bool :=
  decide (l.length = len) && l.all Char.isDigit

/-- Gregorian leap year, as `calendar.isleap` / `datetime` use it. -/
def isLeap (y : Nat) : Bool :=
  (y % 4 == 0 && !(y % 100 == 0)) || y % 400 == 0

/-- Number of days of month `m` in year `y` (months 1..12). -/
def daysInMonth (y m : Nat) : Nat :=
  if m == 2 then (if isLeap y then 29 else 28)
  else if m == 4 || m == 6 || m == 9 || m == 11 then 30
  else 31

/-- `strptime` of a `"%Y-%m-%d"` date component. -/
def parseDatePart (s : String) : Option (Nat × Nat × Nat) :=
  match splitOnChar (Char.ofNat 45) s.data with
  | [ys, ms, ds] =>
    if digitRunExact 4 ys && digitRun 2 ms && digitRun 2 ds then
      let y := natOfDigits ys
      let m := natOfDigits ms
      let d := natOfDigits ds
      if 1 ≤ y && y ≤ 9999 && 1 ≤ m && m ≤ 12 && 1 ≤ d && d ≤ daysInMonth y m then
        some (y, m, d)
      else none
    else none
  | _ => none

/-- `strptime` of a `"%H:%M"` time component. -/
def parseTimePart (s : String) : Option (Nat × Nat) :=
  match splitOnChar (Char.ofNat 58) s.data with
  | [hs, ms] =>
    if digitRun 2 hs && digitRun 2 ms then
      let h := natOfDigits hs
      let mi := natOfDigits ms
      if h ≤ 23 && mi ≤ 59 then some (h, mi) else none
    else none
  | _ => none

/-- `datetime.strptime(f"{date_str} {time_str}", "%Y-%m-%d %H:%M")`,
returning `none` where Python raises `ValueError`. -/
def strptimeDT (date_str time_str : String) : Option DateTime :=
  match parseDatePart date_str, parseTimePart time_str with
  | some (y, m, d), some (h, mi) => some ⟨y, m, d, h, mi⟩
  | _, _ => none

/-! ## Booking (`create_appointment`, lines 242-277) -/

/-- The POST form of `/appointments/new`: the checked `services`
checkbox values in form order, the free-text `special_request`, and the
`date`/`time` fields. -/
structure ApptForm where
  services : List String
  special_request : String
  date : String
  time : String
deriving Repr, DecidableEq

/-- The merged service selection (lines 244-247): the checkbox list,
with `"Special Request: <text>"` appended when the stripped special
request is non-empty. -/
def mergedServices (f : ApptForm) : List String :=
  if pyStrip f.special_request == "" then f.services
  else f.services ++ ["Special Request: " ++ pyStrip f.special_request]

/-- The booking handler POST branch (lines 242-277), for the logged-in
customer `sessUid`; `freshId` is the new row's primary key. -/
def create_appointment (db : DB) (sessUid : Nat) (freshId : Nat)
    (f : ApptForm) : DB × Response :=
  let services_list := mergedServices f
  if services_list.isEmpty then
    (db, ⟨["Please select at least one service."], "create_appointment"⟩)
  else
    match strptimeDT (pyStrip f.date) (pyStrip f.time) with
    | none => (db, ⟨["Invalid date or time format."], "create_appointment"⟩)
    | some start_at =>
      let services_str := String.intercalate ", " services_list
      let title := services_list.headD "Appointment"
      let appt : Appointment :=
        { id := freshId
          user_id := sessUid
          title := title
          start_at := start_at
          notes := none
          services := services_str
          canceled := false }
      ({ db with appts := db.appts ++ [appt] }, ⟨["Appointment created!"], "main"⟩)

/-! ## Soft cancel (customer path, lines 302-319; boss path, lines 344-381)

Fetching a row with `.first()` and committing `appt.canceled = True`
mutates exactly the first matching row; `setCanceledFirst` is that
write-back. -/

/-- Set `canceled := true` on the first element satisfying `p`, leaving
everything else untouched. -/
def setCanceledFirst (p : Appointment → Bool) : List Appointment → List Appointment
  | [] => []
  | a :: rest =>
    if p a then { a with canceled := true } :: rest
    else a :: setCanceledFirst p rest

/-- The row `customer_cancel_appointment` fetches (line 307):
`filter_by(id=appt_id, user_id=session["user_id"]).first()`. -/
def customerCancelPred (sessUid appt_id : Nat) (b : Appointment) : Bool :=
  b.id == appt_id && b.user_id == sessUid

/-- `customer_cancel_appointment(appt_id)` (lines 302-319) for the
logged-in non-boss customer `sessUid`. -/
def customer_cancel_appointment (db : DB) (sessUid : Nat) (appt_id : Nat) :
    DB × Response :=
  match db.appts.find? (customerCancelPred sessUid appt_id) with
  | none => (db, ⟨["Appointment not found."], "list_appointments"⟩)
  | some a =>
    if a.canceled then
      (db, ⟨["This appointment is already canceled."], "list_appointments"⟩)
    else
      ({ db with appts := setCanceledFirst (customerCancelPred sessUid appt_id) db.appts },
       ⟨["Appointment canceled."], "list_appointments"⟩)

/-- Three-letter month abbreviation, `strftime` `%b` (C locale). -/
def monthAbbrev : Nat → String
  | 1 => "Jan" | 2 => "Feb" | 3 => "Mar" | 4 => "Apr"
  | 5 => "May" | 6 => "Jun" | 7 => "Jul" | 8 => "Aug"
  | 9 => "Sep" | 10 => "Oct" | 11 => "Nov" | 12 => "Dec"
  | _ => ""

/-- Zero-padded two-digit rendering of a field value. -/
def pad2 (n : Nat) : String :=
  if n < 10 then "0" ++ toString n else toString n

/-- `strftime("%b %d, %Y at %I:%M %p")` (line 359): 12-hour clock,
zero-padded day/hour/minute, AM/PM. -/
def strftimeFriendly (d : DateTime) : String :=
  let h12 := if d.hour % 12 == 0 then 12 else d.hour % 12
  let ap := if d.hour < 12 then "AM" else "PM"
  monthAbbrev d.month ++ " " ++ pad2 d.day ++ ", " ++ toString d.year ++
    " at " ++ pad2 h12 ++ ":" ++ pad2 d.minute ++ " " ++ ap

/-- The SMS body composed at lines 361-364. -/
def cancelSmsBody (name : String) (dt_str : String) : String :=
  "Hi " ++ name ++ ", your appointment on " ++ dt_str ++
    " has been canceled. If you'd like to reschedule, please reply or book again."

/-- One call issued to the SMS transport. -/
structure SmsCall where
  to_number : String
  body : String
deriving Repr, DecidableEq

/-- `appt.user.phone` passed to `send_sms`: `None` arrives as a falsy
value, which the embedding folds to the empty string (both fail the
`not to_number` truthiness test identically). -/
def phoneStr : Option String → String
  | none => ""
  | some s => s

/-- `boss_cancel(appt_id)` (lines 344-381) for a logged-in boss session.
The store commit of `canceled = True` (lines 355-356) happens before the
SMS is composed and attempted; the third component records every
`send_sms` transport invocation the handler made. Returns `none` exactly
where Python would raise: the fetched appointment's owner row is missing
(`appt.user` is `None` at line 360). The month-preserving query-string
arguments of the redirect (lines 372-381) are presentation detail and
are not modelled; the redirect target is the calendar view in every
branch. -/
def boss_cancel (db : DB) (cfg : TwilioConfig) (transportOk : Bool)
    (appt_id : Nat) : Option (DB × Response × List SmsCall) :=
  match db.appts.find? (fun b => b.id == appt_id) with
  | none => some (db, ⟨["Appointment not found."], "calendar_view"⟩, [])
  | some a =>
    if a.canceled then
      some (db, ⟨["This appointment was already canceled."], "calendar_view"⟩, [])
    else
      let db1 : DB :=
        { db with appts := setCanceledFirst (fun b => b.id == appt_id) db.appts }
      match db.users.find? (fun u => u.id == a.user_id) with
      | none => none
      | some u =>
        let body := cancelSmsBody u.fullname (strftimeFriendly a.start_at)
        let toNum := phoneStr u.phone
        let sent := (send_sms cfg transportOk toNum body).1
        let fl :=
          if sent then []
          else ["Appointment canceled, but SMS notification could not be sent (check Twilio config or phone)."]
        some (db1, ⟨fl, "calendar_view"⟩, [⟨toNum, body⟩])

/-! ## Calendar view (`calendar_view`, lines 386-435) -/

/-- Insert into a list sorted by `DateTime.leb` on `start_at`, keeping
earlier elements first on ties (a stable sort, as `ORDER BY` ascending
returns rows). -/
def insertByStart (a : Appointment) : List Appointment → List Appointment
  | [] => [a]
  | b :: rest =>
    if DateTime.leb b.start_at a.start_at then b :: insertByStart a rest
    else a :: b :: rest

/-- `order_by(Appointment.start_at.asc())`: stable insertion sort. -/
def sortByStart : List Appointment → List Appointment
  | [] => []
  | a :: rest => insertByStart a (sortByStart rest)

/-- The `appts_by_day` dictionary build (lines 416-418): fold over the
sorted list, appending each appointment to the bucket of its
day-of-month. -/
def bucketsAux (acc : Nat → List Appointment) :
    List Appointment → Nat → List Appointment
  | [] => acc
  | a :: rest =>
    bucketsAux (fun d => if d == a.start_at.day then acc d ++ [a] else acc d) rest

/-- The data `calendar_view` hands to the template (the week grid and
month name are pure functions of (year, month) and not modelled). -/
structure CalendarData where
  year : Nat
  month : Nat
  month_start : DateTime
  month_end : DateTime
  appts : List Appointment
  appts_by_day : Nat → List Appointment

/-- Whether `datetime(year, month, 1)` succeeds: the constructor raises
`ValueError` outside `MINYEAR ≤ year ≤ MAXYEAR` (1..9999) or month
outside 1..12 (day 1 is always valid). -/
def datetimeOk (year month : Int) : Bool :=
  1 ≤ year && year ≤ 9999 && 1 ≤ month && month ≤ 12

/-- Lines 400-418 of `calendar_view`, after the two `datetime`
constructions at lines 403-404 succeeded, for the validated year `y`
and month `mn`: month window, role scoping (boss sees all, others only
their own), ascending sort and day bucketing as in the source. -/
def calendarCore (db : DB) (sess : Session) (y mn : Nat) : CalendarData :=
  let month_start : DateTime := ⟨y, mn, 1, 0, 0⟩
  let month_end : DateTime := ⟨y + mn / 12, mn % 12 + 1, 1, 0, 0⟩
  let base := db.appts.filter (fun a =>
    DateTime.leb month_start a.start_at && DateTime.ltb a.start_at month_end)
  let inScope :=
    if is_boss sess then base
    else base.filter (fun a => a.user_id == sess.user_id)
  let sorted := sortByStart inScope
  { year := y
    month := mn
    month_start := month_start
    month_end := month_end
    appts := sorted
    appts_by_day := bucketsAux (fun _ => []) sorted }

/-- `calendar_view` (lines 386-435) for the logged-in session `sess`.
`year` and `month` are the query-string integers; `todayMonth` is
`date.today().month` (always 1..12), used only to normalize an
out-of-range month argument (lines 397-398). The year is NOT
normalized: `datetime(year, month, 1)` at line 403 raises an uncaught
`ValueError` for year outside 1..9999, and `datetime(year + month //
12, (month %% 12) + 1, 1)` at line 404 raises at (year, month) =
(9999, 12), where the following month's year is 10000; both error
paths are `none` (the request 500s and produces no page data). -/
def calendar_view (db : DB) (sess : Session) (todayMonth : Nat)
    (year month : Int) : Option CalendarData :=
  let m : Int := if month < 1 || month > 12 then (todayMonth : Int) else month
  if !datetimeOk year m then none
  else if !datetimeOk ((year.toNat + m.toNat / 12 : Nat) : Int)
      ((m.toNat % 12 + 1 : Nat) : Int) then none
  else some (calendarCore db sess year.toNat m.toNat)

/-! ## Sample data (used to instantiate theorems at concrete inputs) -/

/-- A sample customer. -/
def sampleUser : User :=
  ⟨2, "Bob", "bob@x.com", "h", ⟨2024, 1, 1, 0, 0⟩, "user", some "+15551234567"⟩

/-- A sample customer whose phone column is NULL. -/
def samplePhonelessUser : User :=
  ⟨3, "Eve", "eve@x.com", "h", ⟨2024, 1, 1, 0, 0⟩, "user", none⟩

/-- A sample appointment of `sampleUser`. -/
def sampleAppt : Appointment :=
  ⟨1, 2, "Haircut", ⟨2024, 3, 15, 14, 30⟩, none, "Haircut", false⟩

/-- A sample appointment of `samplePhonelessUser`. -/
def sampleAppt2 : Appointment :=
  ⟨4, 3, "Color", ⟨2024, 3, 20, 9, 0⟩, none, "Color", false⟩

/-- A sample store holding the two users and their appointments. -/
def sampleDB : DB :=
  ⟨[sampleUser, samplePhonelessUser], [sampleAppt, sampleAppt2]⟩

/-- An appointment of `sampleUser` starting in December 9999, the last
month `datetime` can represent. -/
def dec9999Appt : Appointment :=
  ⟨7, 2, "Haircut", ⟨9999, 12, 20, 10, 0⟩, none, "Haircut", false⟩

/-- A store holding `dec9999Appt`. -/
def dec9999DB : DB :=
  ⟨[sampleUser], [dec9999Appt]⟩

/-- A fully configured Twilio environment. -/
def sampleCfg : TwilioConfig :=
  ⟨some "sid", some "tok", some "+15550000000", true⟩

/-! ## Helper lemmas -/

/-- If `find?` locates `a`, then `setCanceledFirst` rewrites the list as
the prefix of non-matching rows, the matched row with its `canceled`
flag set, and the untouched suffix. -/
theorem setCanceledFirst_split (p : Appointment → Bool) (l : List Appointment)
    (a : Appointment) (hfind : l.find? p = some a) :
    ∃ l₁ l₂, l = l₁ ++ a :: l₂ ∧ (∀ x ∈ l₁, p x = false) ∧
      setCanceledFirst p l = l₁ ++ { a with canceled := true } :: l₂ := by
  induction l with
  | nil => simp at hfind
  | cons b rest ih =>
    by_cases hb : p b
    · rw [List.find?_cons_of_pos _ hb] at hfind
      obtain rfl : b = a := by injection hfind
      exact ⟨[], rest, rfl, by simp, by simp [setCanceledFirst, hb]⟩
    · rw [List.find?_cons_of_neg _ (by simpa using hb)] at hfind
      obtain ⟨l₁, l₂, hsplit, hnone, hset⟩ := ih hfind
      refine ⟨b :: l₁, l₂, by simp [hsplit], ?_, ?_⟩
      · intro x hx
        rcases List.mem_cons.mp hx with rfl | hx
        · simpa using hb
        · exact hnone x hx
      · simp [setCanceledFirst, hb, hset]

/-- After `setCanceledFirst`, `find?` with the same predicate returns
the updated row, provided the predicate still accepts it (true whenever
`p` ignores the `canceled` field). -/
theorem find?_setCanceledFirst (p : Appointment → Bool) (l : List Appointment)
    (a : Appointment) (hfind : l.find? p = some a)
    (hp : p { a with canceled := true } = true) :
    (setCanceledFirst p l).find? p = some { a with canceled := true } := by
  induction l with
  | nil => simp at hfind
  | cons b rest ih =>
    by_cases hb : p b
    · rw [List.find?_cons_of_pos _ hb] at hfind
      obtain rfl : b = a := by injection hfind
      simp [setCanceledFirst, hb, List.find?_cons_of_pos _ hp]
    · rw [List.find?_cons_of_neg _ (by simpa using hb)] at hfind
      simpa [setCanceledFirst, hb, List.find?_cons_of_neg _ (by simpa using hb)]
        using ih hfind

/-- Membership in `insertByStart` is membership in the original list or
being the inserted element. -/
theorem mem_insertByStart (a b : Appointment) (l : List Appointment) :
    b ∈ insertByStart a l ↔ b = a ∨ b ∈ l := by
  induction l with
  | nil => simp [insertByStart]
  | cons c rest ih =>
    by_cases h : DateTime.leb c.start_at a.start_at
    · simp only [insertByStart, if_pos h, List.mem_cons, ih]
      tauto
    · simp only [insertByStart, if_neg h, List.mem_cons]

/-- Sorting by start time does not change membership. -/
theorem mem_sortByStart (a : Appointment) (l : List Appointment) :
    a ∈ sortByStart l ↔ a ∈ l := by
  induction l with
  | nil => simp [sortByStart]
  | cons b rest ih =>
    simp [sortByStart, mem_insertByStart, ih]

/-- The dictionary built by `bucketsAux` maps each day to the seeded
bucket followed by the appointments of that day, in list order. -/
theorem bucketsAux_eq_filter (l : List Appointment) (acc : Nat → List Appointment)
    (d : Nat) :
    bucketsAux acc l d = acc d ++ l.filter (fun a => a.start_at.day == d) := by
  induction l generalizing acc with
  | nil => simp [bucketsAux]
  | cons a rest ih =>
    simp only [bucketsAux, ih]
    by_cases h : a.start_at.day = d
    · simp [h, List.filter_cons]
    · have h' : (a.start_at.day == d) = false := by simpa using h
      have h'' : (d == a.start_at.day) = false := by
        simpa using fun hdd => h hdd.symm
      simp [List.filter_cons, h', h'']

/-! ## Claim theorems -/

/-- C7: `SendSms` always returns a boolean (it is a total function of
its inputs, never raising): it returns `false` with no network attempt
when the destination number is empty or any of the three credentials is
missing, returns `false` whenever the transport raises, and returns
`true` only when a transport call was attempted and completed without
exception. -/
theorem send_sms_contract (cfg : TwilioConfig) (transportOk : Bool)
    (to_number body : String) :
    ((to_number = "" ∨ credsOk cfg = false) →
      send_sms cfg transportOk to_number body = (false, false)) ∧
    (transportOk = false → (send_sms cfg transportOk to_number body).1 = false) ∧
    ((send_sms cfg transportOk to_number body).1 = true →
      (send_sms cfg transportOk to_number body).2 = true ∧ transportOk = true) := by
  cases h1 : (to_number == "" || !credsOk cfg) <;>
    cases h2 : cfg.clientAvailable <;>
      cases transportOk <;>
        simp_all [send_sms]

/-- Witness for C7 at a concrete configuration: empty destination
number yields `(false, false)`. -/
theorem send_sms_contract_witness :
    send_sms ⟨some "sid", some "tok", some "+15550000000", true⟩ true "" "hello" =
      (false, false) :=
  (send_sms_contract ⟨some "sid", some "tok", some "+15550000000", true⟩ true "" "hello").1
    (Or.inl rfl)

/-- C6: on the customer cancel path, a non-existent appointment id and
an appointment id owned by a different user produce the exact same
outcome — unchanged store, the flash "Appointment not found." and a
redirect to the customer's appointment list. -/
theorem customer_cancel_indistinguishable (db : DB) (sessUid appt_id : Nat) :
    ((∀ a ∈ db.appts, a.id ≠ appt_id) →
      customer_cancel_appointment db sessUid appt_id =
        (db, ⟨["Appointment not found."], "list_appointments"⟩)) ∧
    ((∀ a ∈ db.appts, a.id = appt_id → a.user_id ≠ sessUid) →
      customer_cancel_appointment db sessUid appt_id =
        (db, ⟨["Appointment not found."], "list_appointments"⟩)) := by
  constructor
  · intro h
    have hnone : db.appts.find? (customerCancelPred sessUid appt_id) = none := by
      rw [List.find?_eq_none]
      intro x hx
      simp only [customerCancelPred, Bool.not_eq_true, Bool.and_eq_false_imp]
      intro hid
      exact absurd (eq_of_beq hid) (h x hx)
    simp [customer_cancel_appointment, hnone]
  · intro h
    have hnone : db.appts.find? (customerCancelPred sessUid appt_id) = none := by
      rw [List.find?_eq_none]
      intro x hx
      simp only [customerCancelPred, Bool.not_eq_true, Bool.and_eq_false_imp]
      intro hid
      simpa using h x hx (eq_of_beq hid)
    simp [customer_cancel_appointment, hnone]

/-- Witness for C6: user 7 requesting cancel of appointment 1, which
belongs to user 2, gets exactly the not-found outcome; so does a
request for the absent id 99. -/
theorem customer_cancel_indistinguishable_witness :
    customer_cancel_appointment
        ⟨[], [⟨1, 2, "Haircut", ⟨2024, 3, 15, 14, 30⟩, none, "Haircut", false⟩]⟩ 7 1 =
      (⟨[], [⟨1, 2, "Haircut", ⟨2024, 3, 15, 14, 30⟩, none, "Haircut", false⟩]⟩,
        ⟨["Appointment not found."], "list_appointments"⟩) ∧
    customer_cancel_appointment
        ⟨[], [⟨1, 2, "Haircut", ⟨2024, 3, 15, 14, 30⟩, none, "Haircut", false⟩]⟩ 7 99 =
      (⟨[], [⟨1, 2, "Haircut", ⟨2024, 3, 15, 14, 30⟩, none, "Haircut", false⟩]⟩,
        ⟨["Appointment not found."], "list_appointments"⟩) :=
  ⟨(customer_cancel_indistinguishable
        ⟨[], [⟨1, 2, "Haircut", ⟨2024, 3, 15, 14, 30⟩, none, "Haircut", false⟩]⟩ 7 1).2
      (by decide),
   (customer_cancel_indistinguishable
        ⟨[], [⟨1, 2, "Haircut", ⟨2024, 3, 15, 14, 30⟩, none, "Haircut", false⟩]⟩ 7 99).1
      (by decide)⟩

/-- C2: on an existing, visible, not-yet-canceled appointment, cancel
followed by cancel yields `canceled = true` after both calls; the first
call flips the flag and reports success, the second is a store no-op
that flashes "already canceled" rather than erroring — on the customer
path and on the boss path. -/
theorem soft_cancel_idempotent (db : DB) (uid i : Nat) (cfg : TwilioConfig)
    (t₁ t₂ : Bool) :
    (∀ a, db.appts.find? (customerCancelPred uid i) = some a → a.canceled = false →
      customer_cancel_appointment db uid i =
        ({ db with appts := setCanceledFirst (customerCancelPred uid i) db.appts },
         ⟨["Appointment canceled."], "list_appointments"⟩) ∧
      ((customer_cancel_appointment db uid i).1.appts.find?
          (customerCancelPred uid i)).map Appointment.canceled = some true ∧
      customer_cancel_appointment (customer_cancel_appointment db uid i).1 uid i =
        ((customer_cancel_appointment db uid i).1,
         ⟨["This appointment is already canceled."], "list_appointments"⟩)) ∧
    (∀ a u, db.appts.find? (fun b => b.id == i) = some a → a.canceled = false →
      db.users.find? (fun x => x.id == a.user_id) = some u →
      ∃ resp calls,
        boss_cancel db cfg t₁ i =
          some ({ db with appts := setCanceledFirst (fun b => b.id == i) db.appts },
            resp, calls) ∧
        ((setCanceledFirst (fun b => b.id == i) db.appts).find?
            (fun b => b.id == i)).map Appointment.canceled = some true ∧
        boss_cancel { db with appts := setCanceledFirst (fun b => b.id == i) db.appts }
            cfg t₂ i =
          some ({ db with appts := setCanceledFirst (fun b => b.id == i) db.appts },
            ⟨["This appointment was already canceled."], "calendar_view"⟩, [])) := by
  constructor
  · intro a hfind ha
    have hp : customerCancelPred uid i { a with canceled := true } = true := by
      simpa [customerCancelPred] using List.find?_some hfind
    have hfind2 := find?_setCanceledFirst _ _ _ hfind hp
    have h1 : customer_cancel_appointment db uid i =
        ({ db with appts := setCanceledFirst (customerCancelPred uid i) db.appts },
         ⟨["Appointment canceled."], "list_appointments"⟩) := by
      simp [customer_cancel_appointment, hfind, ha]
    refine ⟨h1, ?_, ?_⟩
    · rw [h1]
      simp [hfind2]
    · rw [h1]
      simp [customer_cancel_appointment, hfind2]
  · intro a u hfind ha hu
    have hp : (fun b : Appointment => b.id == i) { a with canceled := true } = true := by
      simpa using List.find?_some hfind
    have hfind2 := find?_setCanceledFirst _ _ _ hfind hp
    refine ⟨⟨if (send_sms cfg t₁ (phoneStr u.phone)
            (cancelSmsBody u.fullname (strftimeFriendly a.start_at))).1 then []
          else ["Appointment canceled, but SMS notification could not be sent (check Twilio config or phone)."],
        "calendar_view"⟩,
      [⟨phoneStr u.phone, cancelSmsBody u.fullname (strftimeFriendly a.start_at)⟩],
      ?_, ?_, ?_⟩
    · simp [boss_cancel, hfind, ha, hu]
    · simp [hfind2]
    · simp [boss_cancel, hfind2]

/-- Witness for C2 at `sampleDB`: both cancel paths, applied twice to
appointment 1, end with the flag set and the second call flashing
"already canceled". -/
theorem soft_cancel_idempotent_witness :
    (customer_cancel_appointment sampleDB 2 1 =
        ({ sampleDB with
            appts := setCanceledFirst (customerCancelPred 2 1) sampleDB.appts },
         ⟨["Appointment canceled."], "list_appointments"⟩) ∧
      ((customer_cancel_appointment sampleDB 2 1).1.appts.find?
          (customerCancelPred 2 1)).map Appointment.canceled = some true ∧
      customer_cancel_appointment (customer_cancel_appointment sampleDB 2 1).1 2 1 =
        ((customer_cancel_appointment sampleDB 2 1).1,
         ⟨["This appointment is already canceled."], "list_appointments"⟩)) ∧
    (∃ resp calls,
      boss_cancel sampleDB sampleCfg true 1 =
        some ({ sampleDB with
            appts := setCanceledFirst (fun b => b.id == 1) sampleDB.appts },
          resp, calls) ∧
      ((setCanceledFirst (fun b => b.id == 1) sampleDB.appts).find?
          (fun b => b.id == 1)).map Appointment.canceled = some true ∧
      boss_cancel
          { sampleDB with
              appts := setCanceledFirst (fun b => b.id == 1) sampleDB.appts }
          sampleCfg true 1 =
        some ({ sampleDB with
            appts := setCanceledFirst (fun b => b.id == 1) sampleDB.appts },
          ⟨["This appointment was already canceled."], "calendar_view"⟩, [])) :=
  ⟨(soft_cancel_idempotent sampleDB 2 1 sampleCfg true true).1 sampleAppt
      (by decide) (by decide),
   (soft_cancel_idempotent sampleDB 2 1 sampleCfg true true).2 sampleAppt sampleUser
      (by decide) (by decide) (by decide)⟩

/-- C10: a successful soft cancel (either path) changes exactly the
matched appointment row, and on that row exactly the `canceled` field
(from `false` to `true`): the record-update `{ a with canceled := true }`
keeps `user_id`, `title`, `start_at`, `notes` and `services`; every
other appointment row and the whole user table are untouched. -/
theorem soft_cancel_frame (db : DB) (uid i : Nat) (cfg : TwilioConfig) (t : Bool) :
    (∀ a, db.appts.find? (customerCancelPred uid i) = some a → a.canceled = false →
      (customer_cancel_appointment db uid i).1.users = db.users ∧
      ∃ l₁ l₂, db.appts = l₁ ++ a :: l₂ ∧
        (customer_cancel_appointment db uid i).1.appts =
          l₁ ++ { a with canceled := true } :: l₂) ∧
    (∀ a u, db.appts.find? (fun b => b.id == i) = some a → a.canceled = false →
      db.users.find? (fun x => x.id == a.user_id) = some u →
      ∀ db₁ resp calls, boss_cancel db cfg t i = some (db₁, resp, calls) →
        db₁.users = db.users ∧
        ∃ l₁ l₂, db.appts = l₁ ++ a :: l₂ ∧
          db₁.appts = l₁ ++ { a with canceled := true } :: l₂) := by
  constructor
  · intro a hfind ha
    obtain ⟨l₁, l₂, hsplit, -, hset⟩ := setCanceledFirst_split _ _ _ hfind
    have h1 : customer_cancel_appointment db uid i =
        ({ db with appts := setCanceledFirst (customerCancelPred uid i) db.appts },
         ⟨["Appointment canceled."], "list_appointments"⟩) := by
      simp [customer_cancel_appointment, hfind, ha]
    rw [h1]
    exact ⟨rfl, l₁, l₂, hsplit, hset⟩
  · intro a u hfind ha hu db₁ resp calls hrun
    obtain ⟨l₁, l₂, hsplit, -, hset⟩ := setCanceledFirst_split _ _ _ hfind
    have h1 : boss_cancel db cfg t i =
        some ({ db with appts := setCanceledFirst (fun b => b.id == i) db.appts },
          ⟨if (send_sms cfg t (phoneStr u.phone)
                (cancelSmsBody u.fullname (strftimeFriendly a.start_at))).1 then []
            else ["Appointment canceled, but SMS notification could not be sent (check Twilio config or phone)."],
           "calendar_view"⟩,
          [⟨phoneStr u.phone, cancelSmsBody u.fullname (strftimeFriendly a.start_at)⟩]) := by
      simp [boss_cancel, hfind, ha, hu]
    rw [h1] at hrun
    simp only [Option.some.injEq, Prod.mk.injEq] at hrun
    obtain ⟨hdb, -, -⟩ := hrun
    subst hdb
    exact ⟨rfl, l₁, l₂, hsplit, hset⟩

/-- Witness for C10 at `sampleDB`: canceling appointment 1 (customer
path) and appointment 4 (boss path) rewrites exactly that row. -/
theorem soft_cancel_frame_witness :
    ((customer_cancel_appointment sampleDB 2 1).1.users = sampleDB.users ∧
      ∃ l₁ l₂, sampleDB.appts = l₁ ++ sampleAppt :: l₂ ∧
        (customer_cancel_appointment sampleDB 2 1).1.appts =
          l₁ ++ { sampleAppt with canceled := true } :: l₂) ∧
    (∀ db₁ resp calls, boss_cancel sampleDB sampleCfg true 4 = some (db₁, resp, calls) →
      db₁.users = sampleDB.users ∧
      ∃ l₁ l₂, sampleDB.appts = l₁ ++ sampleAppt2 :: l₂ ∧
        db₁.appts = l₁ ++ { sampleAppt2 with canceled := true } :: l₂) :=
  ⟨(soft_cancel_frame sampleDB 2 1 sampleCfg true).1 sampleAppt (by decide) (by decide),
   (soft_cancel_frame sampleDB 2 4 sampleCfg true).2 sampleAppt2 samplePhonelessUser
      (by decide) (by decide) (by decide)⟩

/-- C8: when the boss cancels an existing, not-yet-canceled appointment
and the SMS fails (for instance the owner's phone is NULL), the
cancellation is still committed — the resulting store has the flag set
and is the same store produced under any other SMS configuration or
transport outcome (the commit precedes and does not depend on the SMS
attempt) — and the handler flashes the combined success-plus-warning
message instead of failing. -/
theorem boss_cancel_commit_independent_of_sms (db : DB) (cfg cfg' : TwilioConfig)
    (t t' : Bool) (i : Nat) (a : Appointment) (u : User)
    (hfind : db.appts.find? (fun b => b.id == i) = some a)
    (ha : a.canceled = false)
    (hu : db.users.find? (fun x => x.id == a.user_id) = some u)
    (hfail : (send_sms cfg t (phoneStr u.phone)
        (cancelSmsBody u.fullname (strftimeFriendly a.start_at))).1 = false) :
    boss_cancel db cfg t i =
      some ({ db with appts := setCanceledFirst (fun b => b.id == i) db.appts },
        ⟨["Appointment canceled, but SMS notification could not be sent (check Twilio config or phone)."],
         "calendar_view"⟩,
        [⟨phoneStr u.phone, cancelSmsBody u.fullname (strftimeFriendly a.start_at)⟩]) ∧
    ((setCanceledFirst (fun b => b.id == i) db.appts).find?
        (fun b => b.id == i)).map Appointment.canceled = some true ∧
    (boss_cancel db cfg' t' i).map (fun r => r.1) =
      some { db with appts := setCanceledFirst (fun b => b.id == i) db.appts } := by
  have hp : (fun b : Appointment => b.id == i) { a with canceled := true } = true := by
    simpa using List.find?_some hfind
  have hfind2 := find?_setCanceledFirst _ _ _ hfind hp
  refine ⟨?_, ?_, ?_⟩
  · simp [boss_cancel, hfind, ha, hu, hfail]
  · simp [hfind2]
  · simp [boss_cancel, hfind, ha, hu]

/-- Witness for C8: the boss cancels appointment 4, whose owner has no
phone on file; the cancellation is committed and the warning flashed. -/
theorem boss_cancel_commit_independent_of_sms_witness :
    boss_cancel sampleDB sampleCfg true 4 =
      some ({ sampleDB with
          appts := setCanceledFirst (fun b => b.id == 4) sampleDB.appts },
        ⟨["Appointment canceled, but SMS notification could not be sent (check Twilio config or phone)."],
         "calendar_view"⟩,
        [⟨phoneStr samplePhonelessUser.phone,
          cancelSmsBody samplePhonelessUser.fullname
            (strftimeFriendly sampleAppt2.start_at)⟩]) ∧
    ((setCanceledFirst (fun b => b.id == 4) sampleDB.appts).find?
        (fun b => b.id == 4)).map Appointment.canceled = some true ∧
    (boss_cancel sampleDB sampleCfg false 4).map (fun r => r.1) =
      some { sampleDB with
        appts := setCanceledFirst (fun b => b.id == 4) sampleDB.appts } :=
  boss_cancel_commit_independent_of_sms sampleDB sampleCfg sampleCfg true false 4
    sampleAppt2 samplePhonelessUser (by decide) (by decide) (by decide) (by decide)

/-- C9: the boss handler issues an SMS transport call exactly when the
appointment's `canceled` flag transitions from `false` to `true`: a
missing appointment or an already-canceled one issues no call at all,
a fresh cancel issues exactly one, and a repeated boss cancel of the
same appointment issues none. -/
theorem boss_cancel_sms_only_on_transition (db : DB) (cfg : TwilioConfig)
    (t t₂ : Bool) (i : Nat) :
    (db.appts.find? (fun b => b.id == i) = none →
      boss_cancel db cfg t i =
        some (db, ⟨["Appointment not found."], "calendar_view"⟩, [])) ∧
    (∀ a, db.appts.find? (fun b => b.id == i) = some a → a.canceled = true →
      boss_cancel db cfg t i =
        some (db, ⟨["This appointment was already canceled."], "calendar_view"⟩, [])) ∧
    (∀ a u, db.appts.find? (fun b => b.id == i) = some a → a.canceled = false →
      db.users.find? (fun x => x.id == a.user_id) = some u →
      (boss_cancel db cfg t i).map (fun r => r.2.2) =
        some [⟨phoneStr u.phone,
          cancelSmsBody u.fullname (strftimeFriendly a.start_at)⟩] ∧
      ∀ db₁ resp calls, boss_cancel db cfg t i = some (db₁, resp, calls) →
        (boss_cancel db₁ cfg t₂ i).map (fun r => r.2.2) = some []) := by
  refine ⟨?_, ?_, ?_⟩
  · intro hnone
    simp [boss_cancel, hnone]
  · intro a hfind hc
    simp [boss_cancel, hfind, hc]
  · intro a u hfind ha hu
    have hp : (fun b : Appointment => b.id == i) { a with canceled := true } = true := by
      simpa using List.find?_some hfind
    have hfind2 := find?_setCanceledFirst _ _ _ hfind hp
    have h1 : boss_cancel db cfg t i =
        some ({ db with appts := setCanceledFirst (fun b => b.id == i) db.appts },
          ⟨if (send_sms cfg t (phoneStr u.phone)
                (cancelSmsBody u.fullname (strftimeFriendly a.start_at))).1 then []
            else ["Appointment canceled, but SMS notification could not be sent (check Twilio config or phone)."],
           "calendar_view"⟩,
          [⟨phoneStr u.phone, cancelSmsBody u.fullname (strftimeFriendly a.start_at)⟩]) := by
      simp [boss_cancel, hfind, ha, hu]
    refine ⟨by simp [h1], ?_⟩
    intro db₁ resp calls hrun
    rw [h1] at hrun
    simp only [Option.some.injEq, Prod.mk.injEq] at hrun
    obtain ⟨hdb, -, -⟩ := hrun
    subst hdb
    simp [boss_cancel, hfind2]

/-- Witness for C9 at `sampleDB`: canceling the fresh appointment 1
issues exactly one SMS call; repeating it issues none; the absent id 99
issues none. -/
theorem boss_cancel_sms_only_on_transition_witness :
    (boss_cancel sampleDB sampleCfg true 99 =
      some (sampleDB, ⟨["Appointment not found."], "calendar_view"⟩, [])) ∧
    ((boss_cancel sampleDB sampleCfg true 1).map (fun r => r.2.2) =
        some [⟨phoneStr sampleUser.phone,
          cancelSmsBody sampleUser.fullname (strftimeFriendly sampleAppt.start_at)⟩] ∧
      ∀ db₁ resp calls, boss_cancel sampleDB sampleCfg true 1 = some (db₁, resp, calls) →
        (boss_cancel db₁ sampleCfg true 1).map (fun r => r.2.2) = some []) :=
  ⟨(boss_cancel_sms_only_on_transition sampleDB sampleCfg true true 99).1 (by decide),
   (boss_cancel_sms_only_on_transition sampleDB sampleCfg true true 1).2.2
      sampleAppt sampleUser (by decide) (by decide) (by decide)⟩

/-- Any successful `calendar_view` result is `calendarCore` at some
normalized year and month. -/
theorem calendar_view_some (db : DB) (sess : Session) (todayMonth : Nat)
    (year month : Int) (c : CalendarData)
    (h : calendar_view db sess todayMonth year month = some c) :
    ∃ y mn, c = calendarCore db sess y mn := by
  simp only [calendar_view] at h
  split at h
  all_goals
    split at h
    · exact absurd h (by simp)
    · split at h
      · exact absurd h (by simp)
      · exact ⟨_, _, (Option.some.inj h).symm⟩

/-- Membership in `calendarCore`'s day bucket `d`: selected and
starting on day `d`. -/
theorem calendarCore_bucket_mem (db : DB) (sess : Session) (y mn d : Nat)
    (a : Appointment) :
    a ∈ (calendarCore db sess y mn).appts_by_day d ↔
      a ∈ (calendarCore db sess y mn).appts ∧ a.start_at.day = d := by
  simp only [calendarCore]
  rw [bucketsAux_eq_filter, List.nil_append, List.mem_filter]
  simp

/-- Under a boss scope, `calendarCore` selects exactly the stored
appointments inside the month window. -/
theorem calendarCore_mem_appts (db : DB) (sess : Session) (y mn : Nat)
    (hboss : is_boss sess = true) (a : Appointment) :
    a ∈ (calendarCore db sess y mn).appts ↔
      a ∈ db.appts ∧
        DateTime.leb ⟨y, mn, 1, 0, 0⟩ a.start_at = true ∧
        DateTime.ltb a.start_at ⟨y + mn / 12, mn % 12 + 1, 1, 0, 0⟩ = true := by
  simp only [calendarCore, hboss, if_true]
  rw [mem_sortByStart, List.mem_filter, Bool.and_eq_true]

/-- Under a non-boss scope, everything `calendarCore` selects belongs
to the session user. -/
theorem calendarCore_nonboss_owner (db : DB) (sess : Session) (y mn : Nat)
    (hb : is_boss sess = false) (a : Appointment)
    (ha : a ∈ (calendarCore db sess y mn).appts) :
    a.user_id = sess.user_id := by
  simp only [calendarCore, hb, Bool.false_eq_true, if_false] at ha
  rw [mem_sortByStart] at ha
  exact eq_of_beq (List.mem_filter.mp ha).2

/-- C1 counterexample: the boss requests `/calendar?year=9999&month=12`
while an appointment starting 9999-12-20 is stored; the source raises
an uncaught `ValueError` at `datetime(10000, 1, 1)` (line 404), so the
request produces no buckets at all and in particular no bucket
includes the in-month appointment — refuting the unconditional
bucket-inclusion claim for the boss scope. -/
theorem calendar_visibility_counterexample :
    is_boss ⟨9, "Boss", "boss"⟩ = true ∧
    dec9999Appt ∈ dec9999DB.appts ∧
    dec9999Appt.start_at.year = 9999 ∧
    dec9999Appt.start_at.month = 12 ∧
    calendar_view dec9999DB ⟨9, "Boss", "boss"⟩ 3 9999 12 = none :=
  ⟨rfl, by decide, rfl, rfl, rfl⟩

/-- C1 (amended): for every requested (year, month) at which the
calendar view succeeds (the `datetime` constructions at lines 403-404
do not raise), a non-boss session only ever finds its own appointments
in the day buckets, and a boss session's buckets contain every stored
appointment whose start time lies in the month window, in the bucket
of its day-of-month; at a request where the construction raises, no
buckets are produced at all. -/
theorem calendar_visibility (db : DB) (sess : Session) (todayMonth : Nat)
    (year month : Int) (d : Nat) :
    (is_boss sess = false →
      ∀ c, calendar_view db sess todayMonth year month = some c →
        ∀ a ∈ c.appts_by_day d, a.user_id = sess.user_id) ∧
    (is_boss sess = true →
      ∀ c, calendar_view db sess todayMonth year month = some c →
        ∀ a ∈ db.appts,
          DateTime.leb c.month_start a.start_at = true →
          DateTime.ltb a.start_at c.month_end = true →
          a ∈ c.appts_by_day a.start_at.day) := by
  constructor
  · intro hb c hc a ha
    obtain ⟨y, mn, rfl⟩ := calendar_view_some db sess todayMonth year month c hc
    exact calendarCore_nonboss_owner db sess y mn hb a
      ((calendarCore_bucket_mem db sess y mn d a).mp ha).1
  · intro hb c hc a hmem hle hlt
    obtain ⟨y, mn, rfl⟩ := calendar_view_some db sess todayMonth year month c hc
    refine (calendarCore_bucket_mem db sess y mn a.start_at.day a).mpr ⟨?_, rfl⟩
    exact (calendarCore_mem_appts db sess y mn hb a).mpr ⟨hmem, hle, hlt⟩

/-- Witness for C1: in `sampleDB` at the (successful) March 2024
request, customer 3 never sees customer 2's appointment in the day-15
bucket, and the boss sees appointment 1 there. -/
theorem calendar_visibility_witness :
    (∀ a ∈ (calendarCore sampleDB ⟨3, "Eve", "user"⟩ 2024 3).appts_by_day 15,
      a.user_id = 3) ∧
    sampleAppt ∈
      (calendarCore sampleDB ⟨9, "Boss", "boss"⟩ 2024 3).appts_by_day 15 :=
  ⟨(calendar_visibility sampleDB ⟨3, "Eve", "user"⟩ 3 2024 3 15).1 rfl
      (calendarCore sampleDB ⟨3, "Eve", "user"⟩ 2024 3) rfl,
   (calendar_visibility sampleDB ⟨9, "Boss", "boss"⟩ 3 2024 3 15).2 rfl
      (calendarCore sampleDB ⟨9, "Boss", "boss"⟩ 2024 3) rfl sampleAppt
      (by decide) (by decide) (by decide)⟩

/-- C5 counterexample: at the reachable request (year, month) =
(9999, 12) the source evaluates `datetime(9999 + 1, 1, 1)` and raises
an uncaught `ValueError`: no window is computed and nothing is
selected, although an appointment whose start lies at or after the
claimed `monthStart` 9999-12-01 is stored — refuting the claim for
every integer year. -/
theorem calendar_month_window_counterexample :
    DateTime.leb ⟨9999, 12, 1, 0, 0⟩ dec9999Appt.start_at = true ∧
    dec9999Appt ∈ dec9999DB.appts ∧
    calendar_view dec9999DB ⟨9, "Boss", "boss"⟩ 3 9999 12 = none :=
  ⟨by decide, by decide, rfl⟩

/-- C5 (amended): for every integer year in 1..9999 and month in 1..12
with (year, month) ≠ (9999, 12), the calendar view succeeds, computes
`monthStart` as the first instant of (year, month) and `monthEnd` as
the first instant of the following month — incrementing the year
exactly at month 12 — and (in the boss scope, where no owner filter
applies) selects exactly the appointments with
`monthStart ≤ start_at < monthEnd`; outside those bounds the
`datetime` constructor raises an uncaught `ValueError` and nothing is
selected. -/
theorem calendar_month_window (db : DB) (sess : Session) (todayMonth : Nat)
    (year month : Int) (hy1 : 1 ≤ year) (hy2 : year ≤ 9999)
    (h1 : 1 ≤ month) (h2 : month ≤ 12) (hne : ¬(year = 9999 ∧ month = 12))
    (hboss : is_boss sess = true) :
    ∃ c, calendar_view db sess todayMonth year month = some c ∧
      c.month_start = ⟨year.toNat, month.toNat, 1, 0, 0⟩ ∧
      c.month_end = (if month = 12 then ⟨year.toNat + 1, 1, 1, 0, 0⟩
        else ⟨year.toNat, month.toNat + 1, 1, 0, 0⟩) ∧
      ∀ a, a ∈ c.appts ↔ a ∈ db.appts ∧
        DateTime.leb c.month_start a.start_at = true ∧
        DateTime.ltb a.start_at c.month_end = true := by
  have hnorm : (decide (month < 1) || decide (month > 12)) = false := by
    simp only [Bool.or_eq_false_iff, decide_eq_false_iff_not, not_lt]
    omega
  have g1 : datetimeOk year month = true := by
    simp only [datetimeOk, Bool.and_eq_true, decide_eq_true_eq]
    omega
  have g2 : datetimeOk ((year.toNat + month.toNat / 12 : Nat) : Int)
      ((month.toNat % 12 + 1 : Nat) : Int) = true := by
    simp only [datetimeOk, Bool.and_eq_true, decide_eq_true_eq]
    omega
  have hrun : calendar_view db sess todayMonth year month =
      some (calendarCore db sess year.toNat month.toNat) := by
    simp only [calendar_view, hnorm, g1, g2, Bool.not_true, Bool.false_eq_true, if_false]
  refine ⟨calendarCore db sess year.toNat month.toNat, hrun, rfl, ?_, ?_⟩
  · show (⟨year.toNat + month.toNat / 12, month.toNat % 12 + 1, 1, 0, 0⟩ : DateTime) = _
    by_cases h12 : month = 12
    · have hm : month.toNat = 12 := by omega
      simp [h12, hm]
    · have hd : month.toNat / 12 = 0 := by omega
      have hm : month.toNat % 12 = month.toNat := by omega
      simp [h12, hd, hm]
  · intro a
    exact calendarCore_mem_appts db sess year.toNat month.toNat hboss a

/-- Witness for C5 at the boss request for March 2024 over `sampleDB`:
the window is [2024-03-01T00:00, 2024-04-01T00:00) and selection is
exactly the in-window appointments. -/
theorem calendar_month_window_witness :
    ∃ c, calendar_view sampleDB ⟨9, "Boss", "boss"⟩ 3 2024 3 = some c ∧
      c.month_start = ⟨2024, 3, 1, 0, 0⟩ ∧
      c.month_end = (if (3 : Int) = 12 then ⟨2024 + 1, 1, 1, 0, 0⟩
        else ⟨2024, 3 + 1, 1, 0, 0⟩) ∧
      ∀ a, a ∈ c.appts ↔ a ∈ sampleDB.appts ∧
        DateTime.leb c.month_start a.start_at = true ∧
        DateTime.ltb a.start_at c.month_end = true :=
  calendar_month_window sampleDB ⟨9, "Boss", "boss"⟩ 3 2024 3
    (by decide) (by decide) (by decide) (by decide) (by decide) rfl

/-- C3 counterexample: a request whose fields are all non-empty and
whose email is absent from the store still creates no user when
`password ≠ confirm` — the handler stops at "Passwords do not match."
— refuting the claim's "otherwise it creates a new User". -/
theorem create_account_claim_counterexample :
    pyStrip (RegForm.fullname ⟨"Alice", "alice@x.com", "", "pw1", "different"⟩) ≠ "" ∧
    pyLower (pyStrip (RegForm.email ⟨"Alice", "alice@x.com", "", "pw1", "different"⟩)) ≠ "" ∧
    RegForm.password ⟨"Alice", "alice@x.com", "", "pw1", "different"⟩ ≠ "" ∧
    DB.users ⟨[], []⟩ = [] ∧
    create_account ⟨[], []⟩ 1 ⟨2024, 1, 1, 0, 0⟩ "salt"
        ⟨"Alice", "alice@x.com", "", "pw1", "different"⟩ =
      (⟨[], []⟩, ⟨["Passwords do not match."], "create_account"⟩) := by
  decide

/-- C3 (amended): registration fails with the validation flash when
fullname, email or password is empty; otherwise, when the password does
not match its confirmation, it fails with the mismatch flash and
creates nothing; otherwise it fails with the conflict flash — leaving
every user record unchanged — when the normalized email is already
present; otherwise it appends exactly one `User` with role "user" and a
salted password hash. -/
theorem create_account_spec (db : DB) (fid : Nat) (now : DateTime) (salt : String)
    (f : RegForm) :
    (((pyStrip f.fullname) = "" ∨ (pyLower (pyStrip f.email)) = "" ∨ f.password = "") →
      create_account db fid now salt f =
        (db, ⟨["All fields are required."], "create_account"⟩)) ∧
    ((pyStrip f.fullname) ≠ "" → (pyLower (pyStrip f.email)) ≠ "" → f.password ≠ "" →
      f.password ≠ f.confirm →
      create_account db fid now salt f =
        (db, ⟨["Passwords do not match."], "create_account"⟩)) ∧
    ((pyStrip f.fullname) ≠ "" → (pyLower (pyStrip f.email)) ≠ "" → f.password ≠ "" →
      f.password = f.confirm →
      (∃ u ∈ db.users, u.email = (pyLower (pyStrip f.email))) →
      create_account db fid now salt f =
        (db, ⟨["That email is already registered."], "create_account"⟩)) ∧
    ((pyStrip f.fullname) ≠ "" → (pyLower (pyStrip f.email)) ≠ "" → f.password ≠ "" →
      f.password = f.confirm →
      (∀ u ∈ db.users, u.email ≠ (pyLower (pyStrip f.email))) →
      create_account db fid now salt f =
        ({ db with users := db.users ++
            [{ id := fid
               fullname := (pyStrip f.fullname)
               email := (pyLower (pyStrip f.email))
               password_hash := generate_password_hash salt f.password
               created_at := now
               role := "user"
               phone := if (pyStrip f.phone) == "" then none else some (pyStrip f.phone) }] },
         ⟨["Account created! You can log in now."], "home"⟩)) := by
  refine ⟨?_, ?_, ?_, ?_⟩
  · rintro (h | h | h) <;> simp [create_account, h]
  · intro h1 h2 h3 h4
    have b1 : ((pyStrip f.fullname) == "") = false := by simpa using h1
    have b2 : ((pyLower (pyStrip f.email)) == "") = false := by simpa using h2
    have b3 : (f.password == "") = false := by simpa using h3
    have b4 : (f.password == f.confirm) = false := by simpa using h4
    simp [create_account, b1, b2, b3, b4]
  · intro h1 h2 h3 h4 hdup
    have b1 : ((pyStrip f.fullname) == "") = false := by simpa using h1
    have b2 : ((pyLower (pyStrip f.email)) == "") = false := by simpa using h2
    have b3 : (f.password == "") = false := by simpa using h3
    have b4 : (f.password == f.confirm) = true := by simpa using h4
    have bfind : (db.users.find? (fun u => u.email == (pyLower (pyStrip f.email)))).isSome = true := by
      rw [List.find?_isSome]
      obtain ⟨u, hu, he⟩ := hdup
      exact ⟨u, hu, by simpa using he⟩
    simp [create_account, b1, b2, b3, b4, bfind]
  · intro h1 h2 h3 h4 hnone
    have b1 : ((pyStrip f.fullname) == "") = false := by simpa using h1
    have b2 : ((pyLower (pyStrip f.email)) == "") = false := by simpa using h2
    have b3 : (f.password == "") = false := by simpa using h3
    have b4 : (f.password == f.confirm) = true := by simpa using h4
    have bfind : db.users.find? (fun u => u.email == (pyLower (pyStrip f.email))) = none := by
      rw [List.find?_eq_none]
      intro u hu
      simpa using hnone u hu
    simp [create_account, b1, b2, b3, b4, bfind]

/-- Witness for C3 (amended) at a concrete request: registering Alice
against an empty store appends exactly her record with role "user" and
the salted hash. -/
theorem create_account_spec_witness :
    create_account ⟨[], []⟩ 1 ⟨2024, 1, 1, 0, 0⟩ "salt"
        ⟨" Alice ", "Alice@X.com", "", "pw1", "pw1"⟩ =
      (⟨[{ id := 1
           fullname := "Alice"
           email := "alice@x.com"
           password_hash := generate_password_hash "salt" "pw1"
           created_at := ⟨2024, 1, 1, 0, 0⟩
           role := "user"
           phone := none }], []⟩,
       ⟨["Account created! You can log in now."], "home"⟩) := by
  have h := (create_account_spec ⟨[], []⟩ 1 ⟨2024, 1, 1, 0, 0⟩ "salt"
      ⟨" Alice ", "Alice@X.com", "", "pw1", "pw1"⟩).2.2.2
    (by decide) (by decide) (by decide) rfl (by simp)
  rw [h]
  decide

/-- C4: booking merges the optional special request as a final
"Special Request: r" entry; an empty merged selection or an unparsable
date/time creates nothing (validation flash); otherwise exactly one
appointment is appended whose `services` string is the merged list
joined with ", " in order, whose title is the first merged entry, and
whose `start_at` is the parsed local date-time. -/
theorem create_appointment_spec (db : DB) (uid fid : Nat) (f : ApptForm) :
    (pyStrip f.special_request ≠ "" →
      mergedServices f = f.services ++ ["Special Request: " ++ pyStrip f.special_request]) ∧
    (mergedServices f = [] →
      create_appointment db uid fid f =
        (db, ⟨["Please select at least one service."], "create_appointment"⟩)) ∧
    (mergedServices f ≠ [] → strptimeDT (pyStrip f.date) (pyStrip f.time) = none →
      create_appointment db uid fid f =
        (db, ⟨["Invalid date or time format."], "create_appointment"⟩)) ∧
    (∀ dt hd tl, mergedServices f = hd :: tl →
      strptimeDT (pyStrip f.date) (pyStrip f.time) = some dt →
      create_appointment db uid fid f =
        ({ db with appts := db.appts ++
            [{ id := fid
               user_id := uid
               title := hd
               start_at := dt
               notes := none
               services := String.intercalate ", " (hd :: tl)
               canceled := false }] },
         ⟨["Appointment created!"], "main"⟩)) := by
  refine ⟨?_, ?_, ?_, ?_⟩
  · intro h
    have b : (pyStrip f.special_request == "") = false := by simpa using h
    simp [mergedServices, b]
  · intro h
    simp [create_appointment, h]
  · intro h hp
    have b : (mergedServices f).isEmpty = false := by
      cases hm : mergedServices f with
      | nil => exact absurd hm h
      | cons x xs => simp
    simp [create_appointment, b, hp]
  · intro dt hd tl hm hp
    have b : (mergedServices f).isEmpty = false := by simp [hm]
    simp [create_appointment, b, hp, hm]

/-- Witness for C4, the spec's scenario: services ["Haircut","Color"],
special request "near window", date "2024-03-15", time "14:30" store
services "Haircut, Color, Special Request: near window", title
"Haircut" and start 2024-03-15T14:30. -/
theorem create_appointment_spec_witness :
    create_appointment ⟨[sampleUser], []⟩ 2 1
        ⟨["Haircut", "Color"], "near window", "2024-03-15", "14:30"⟩ =
      (⟨[sampleUser],
        [{ id := 1
           user_id := 2
           title := "Haircut"
           start_at := ⟨2024, 3, 15, 14, 30⟩
           notes := none
           services := "Haircut, Color, Special Request: near window"
           canceled := false }]⟩,
       ⟨["Appointment created!"], "main"⟩) := by
  have h := (create_appointment_spec ⟨[sampleUser], []⟩ 2 1
      ⟨["Haircut", "Color"], "near window", "2024-03-15", "14:30"⟩).2.2.2
    ⟨2024, 3, 15, 14, 30⟩ "Haircut" ["Color", "Special Request: near window"]
    (by decide) (by decide)
  rw [h]
  decide

end ScheduleAssistant
